import Mathlib

/-!
# FlockDoc disease predictor — formal model

Shallow embedding of `backend/disease_predictor.py` (class `DiseasePredictor`),
the symptom-scoring / severity / confidence engine of the FlockDoc repository,
together with theorems settling the specification claims about it.

Conventions used throughout:
* Python `float` arithmetic is modelled exactly over `ℚ` (the constants 0.5,
  1.15, 1.1, 0.35, 0.3, 0.25, 0.95 … are the rationals 1/2, 23/20, 11/10,
  7/20, 3/10, 1/4, 19/20 …).  Python `round(x, n)` is modelled as
  `round (x * 10^n) / 10^n` over `ℚ`.
* Python string operations are modelled character-listwise.  `str.lower` is
  modelled on the ASCII letters (the script of the knowledge base and of the
  symptom vocabulary); `str.replace` is modelled for single-character pattern
  and replacement, the only form the engine uses (`"_" ↔ " "`).
* Python dicts holding optional fields are modelled as structures, with
  `Option` for fields read through `.get(key, default)` whose default is not
  the empty list / empty string.
* The insertion-ordered Python dict that `_score_diseases` builds is modelled
  as an association list with an insert operation that overwrites the value of
  an existing key in place (exactly Python's `d[k] = v`).
* `random.sample` (used only by `get_random_facts`) is the engine's single
  source of nondeterminism; `predict` takes the sampling function as an
  explicit parameter `sample`.
-/

/-! ## String primitives (Python `lower`, `strip`, `split`, `replace`, `in`) -/

/-- Python `str.lower` on one character (ASCII letters). -/
def lowerChar (c : Char) : Char :=
  if 'A' ≤ c ∧ c ≤ 'Z' then Char.ofNat (c.toNat + 32) else c

/-- ASCII whitespace, as recognized by Python `str.strip` / `str.split`. -/
def isWs (c : Char) : Bool :=
  c = ' ' || c = '\t' || c = '\n' || c = '\r' || c = '\x0b' || c = '\x0c'

/-- Python `s.lower()`. -/
def pyLower (s : String) : String := ⟨s.data.map lowerChar⟩

/-- Python `s.strip()`. -/
def pyStrip (s : String) : String :=
  ⟨((s.data.dropWhile isWs).reverse.dropWhile isWs).reverse⟩

/-- Python `s.replace(a, b)` for one-character `a` and `b` (the engine only
replaces `"_"` by `" "` and `" "` by `"_"`). -/
def pyRepl (a b : Char) (s : String) : String :=
  ⟨s.data.map (fun c => if c = a then b else c)⟩

/-- Worker for `str.split()`: split on runs of whitespace, no empty parts;
`cur` accumulates the current word reversed. -/
def splitWsGo : List Char → List Char → List (List Char)
  | [], cur => if cur.isEmpty then [] else [cur.reverse]
  | c :: rest, cur =>
    if isWs c then (if cur.isEmpty then splitWsGo rest [] else cur.reverse :: splitWsGo rest [])
    else splitWsGo rest (c :: cur)

/-- Python `s.split()` (no separator argument). -/
def pySplitWs (s : String) : List String := (splitWsGo s.data []).map (fun l => ⟨l⟩)

/-- `listStarts a b` is true iff `a` is a prefix of `b` (character lists). -/
def listStarts : List Char → List Char → Bool
  | [], _ => true
  | _ :: _, [] => false
  | a :: as, b :: bs => a == b && listStarts as bs

/-- `listHasSub a b` is true iff `a` occurs as a contiguous sublist of `b`. -/
def listHasSub (a : List Char) : List Char → Bool
  | [] => a.isEmpty
  | c :: rest => listStarts a (c :: rest) || listHasSub a rest

/-- Python's substring test `a in b`. -/
def pyIn (a b : String) : Bool := listHasSub a.data b.data

/-! ## Data model (knowledge-base records and the JSON tables) -/

/-- The `treatment` sub-record embedded in a disease (read through
`disease_data.get("treatment", {})` at lines 316-319). -/
structure DiseaseTreatment where
  medications : List String
  supportive : List String
  duration : Option String
deriving DecidableEq, Repr

/-- One disease record of the knowledge base.  Fields read through
`.get(key, default)` with a non-list default are `Option`s; list-valued
fields default to `[]`, so they are plain lists. -/
structure Disease where
  id : String
  name : String
  category : Option String
  affects : List String
  symptoms : List String
  severity : Option String
  causes : List String
  mortality_rate : Option String
  age_susceptibility : String
  deficiency_related : Bool
  deficiency : List String
  prevention : List String
  facts : List String
  treatment : DiseaseTreatment
deriving DecidableEq, Repr

/-- The loaded knowledge base: the three disease pools of `diseases.json`,
the `disease_symptom_mapping` table of `symptoms.json` (an association list),
and the three `quick_facts` pools of `reference.json`. -/
structure KB where
  broiler_diseases : List Disease
  layer_specific : List Disease
  nutritional_deficiencies : List Disease
  disease_symptom_mapping : List (String × List String)
  facts_general : List String
  facts_broiler : List String
  facts_layer : List String
deriving DecidableEq, Repr

/-- A scored candidate: the per-disease value stored in the `scores` dict of
`_score_diseases` (lines 205-209). -/
structure ScoreInfo where
  score : ℚ
  matched_symptoms : List String
  disease : Disease
deriving DecidableEq, Repr

/-- One entry of the response's `diseases` array, as built at lines 77-86 of
`predict`.  `match_score` is the 0-100 percentage rounded to one decimal. -/
structure RDisease where
  id : String
  name : String
  category : String
  match_score : ℚ
  matched_symptoms : List String
  severity : String
  causes : List String
  mortality_rate : String
deriving DecidableEq, Repr

/-- The treatment bundle returned by `_get_treatment_recommendations`. -/
structure TreatmentInfo where
  primary : List String
  supportive : List String
  medications : List String
  duration : String
deriving DecidableEq, Repr

/-- The full result dictionary returned by `predict`. -/
structure PredictionResult where
  diseases : List RDisease
  severity : String
  treatment : Option TreatmentInfo
  deficiencies : Option (List String)
  facts : List String
  prevention : List String
  when_to_call_vet : Bool
  confidence : ℚ
  low_confidence : Bool
  low_confidence_message : Option String
deriving DecidableEq, Repr

/-! ## Symptom matching (`_score_diseases`, lines 166-186) -/

/-- The stop-word set filtered out of keyword overlaps (line 183). -/
def stopWords : List String := ["in", "of", "the", "and", "or", "a", "an", "to"]

/-- The per-(symptom, keyword) match test of lines 172-186, taking the
precomputed `symptom_lower` (line 169) and `symptom_words` (line 170):
either one lower-cased string is a substring of the other (line 177), or the
word sets (underscores read as spaces) share at least one non-stop word
(lines 181-184 — the set intersection there is nonempty after removing stop
words iff some symptom word is a keyword word and not a stop word). -/
def kwMatch (sl : String) (sw : List String) (ds : String) : Bool :=
  let dsl := pyLower ds
  let dsw := pySplitWs (pyRepl '_' ' ' dsl)
  (pyIn sl dsl || pyIn dsl sl) || sw.any (fun w => dsw.contains w && !(stopWords.contains w))

/-- Whether an input symptom matches some keyword of the disease: the inner
loop of lines 168-186 appends the symptom to `matched` (once, then breaks)
iff some keyword qualifies.  `symptom_lower = symptom.lower().strip()` and
`symptom_words = set(symptom_lower.replace("_", " ").split())`. -/
def symptomMatches (ks : List String) (symptom : String) : Bool :=
  let sl := pyStrip (pyLower symptom)
  let sw := pySplitWs (pyRepl '_' ' ' sl)
  ks.any (kwMatch sl sw)

/-- `disease_symptoms = symptom_mapping.get(disease_id, disease.get("symptoms", []))`
(line 164). -/
def keywordsFor (mapping : List (String × List String)) (d : Disease) : List String :=
  ((mapping.find? (fun p => p.1 = d.id)).map (fun p => p.2)).getD d.symptoms

/-! ## Per-disease score (`_score_diseases` lines 188-209, `_is_age_appropriate`) -/

/-- `_is_age_appropriate` (lines 213-229), literal substring checks over the
lower-cased free-text `age_susceptibility` descriptor. -/
def isAgeAppropriate (d : Disease) (age_days : ℤ) (bird_type : String) : Bool :=
  let ai := pyLower d.age_susceptibility
  if pyIn "all ages" ai then true
  else if bird_type = "broiler" then
    if age_days ≤ 7 ∧ pyIn "young" ai then true
    else if 21 ≤ age_days ∧ age_days ≤ 35 ∧ (pyIn "3-6 weeks" ai ∨ pyIn "grower" ai) then true
    else false
  else
    if 140 ≤ age_days ∧ (pyIn "production" ai ∨ pyIn "peak" ai) then true
    else false

/-- The arithmetic of lines 188-203 on the counts
`nk = len(disease_symptoms)`, `m = len(matched)`, `ni = len(input_symptoms)`:
`score = match_ratio*0.5 + input_coverage*0.5`, then `*= 1.15` under the age
bonus and `*= 1.1` under the deficiency bonus (the caller clamps to 1). -/
def comboScore (nk m ni : ℕ) (ageApp bonus : Bool) : ℚ :=
  let match_ratio : ℚ := (m : ℚ) / (nk : ℚ)
  let input_coverage : ℚ := if ni = 0 then 0 else (m : ℚ) / (ni : ℚ)
  let score := match_ratio * (1/2) + input_coverage * (1/2)
  let score := if ageApp then score * (23/20) else score
  if bonus then score * (11/10) else score

/-- The entry `_score_diseases` computes for one disease: `none` when the
keyword list is empty (the `if disease_symptoms:` guard, line 188), otherwise
the clamped score and the matched-symptom sublist of the input. -/
def scoreOne (mapping : List (String × List String)) (d : Disease)
    (input : List String) (age_days : ℤ) (bird_type : String) : Option ScoreInfo :=
  let ks := keywordsFor mapping d
  let matched := input.filter (symptomMatches ks)
  if ks.isEmpty then none
  else some
    { score := min (comboScore ks.length matched.length input.length
        (isAgeAppropriate d age_days bird_type)
        (d.deficiency_related && decide (2 ≤ matched.length))) 1
      matched_symptoms := matched
      disease := d }

/-- Python `scores[disease_id] = v`: overwrite the value in place if the key
exists, else append (insertion-ordered dict semantics). -/
def dictInsert (k : String) (v : ScoreInfo) :
    List (String × ScoreInfo) → List (String × ScoreInfo)
  | [] => [(k, v)]
  | p :: rest => if p.1 = k then (k, v) :: rest else p :: dictInsert k v rest

/-- `_score_diseases` (lines 151-211): the insertion-ordered dict of scored
candidates, keyed by disease id.  A disease occurring twice in `diseases` is
scored twice but its second score overwrites the first entry in place. -/
def scoreDiseases (mapping : List (String × List String)) (diseases : List Disease)
    (input : List String) (age_days : ℤ) (bird_type : String) :
    List (String × ScoreInfo) :=
  diseases.foldl (fun acc d =>
    match scoreOne mapping d input age_days bird_type with
    | none => acc
    | some info => dictInsert d.id info acc) []

/-! ## Ranking (lines 64-65) and response assembly (lines 68-95) -/

/-- One step of a stable descending insertion sort by score: the new element
goes after every already-placed element whose score is at least its own.  This
realizes Python's stable `sorted(..., key=score, reverse=True)` (line 64). -/
def insertByScore (x : String × ScoreInfo) :
    List (String × ScoreInfo) → List (String × ScoreInfo)
  | [] => [x]
  | y :: ys => if y.2.score < x.2.score then x :: y :: ys else y :: insertByScore x ys

/-- Stable sort of the scored candidates by score, descending (ties keep the
dict's insertion order, which follows knowledge-base file order). -/
def sortByScoreDesc (l : List (String × ScoreInfo)) : List (String × ScoreInfo) :=
  l.foldl (fun acc x => insertByScore x acc) []

/-- Python `round(q, 1)`, modelled exactly over `ℚ`. -/
def round1 (q : ℚ) : ℚ := ((round (q * 10) : ℤ) : ℚ) / 10

/-- Python `round(q, 2)`, modelled exactly over `ℚ`. -/
def round2 (q : ℚ) : ℚ := ((round (q * 100) : ℤ) : ℚ) / 100

/-- The response entry built from one scored candidate (lines 77-86);
`match_score = round(score * 100, 1)`. -/
def mkEntry (p : String × ScoreInfo) : RDisease :=
  { id := p.1
    name := p.2.disease.name
    category := p.2.disease.category.getD "unknown"
    match_score := round1 (p.2.score * 100)
    matched_symptoms := p.2.matched_symptoms
    severity := p.2.disease.severity.getD "moderate"
    causes := p.2.disease.causes
    mortality_rate := p.2.disease.mortality_rate.getD "variable" }

/-- `_get_applicable_diseases` (lines 133-149): general diseases whose
`affects` list contains the bird type, plus (for layers) the whole
layer-specific pool, plus all nutritional deficiencies.  No deduplication. -/
def applicableDiseases (kb : KB) (bird_type : String) : List Disease :=
  (kb.broiler_diseases.filter (fun d => d.affects.contains bird_type))
    ++ (if bird_type = "layer" then kb.layer_specific else [])
    ++ kb.nutritional_deficiencies

/-- The top-3 scored candidates that survive the `score > 0` filter
(lines 64-74): sort descending, truncate to 3, keep positive scores. -/
def builtKept (kb : KB) (bird_type : String) (symptoms : List String)
    (age_days : ℤ) : List (String × ScoreInfo) :=
  ((sortByScoreDesc (scoreDiseases kb.disease_symptom_mapping
      (applicableDiseases kb bird_type) symptoms age_days bird_type)).take 3).filter
    (fun p => 0 < p.2.score)

/-- The response's `diseases` array (lines 68-86). -/
def builtDiseases (kb : KB) (bird_type : String) (symptoms : List String)
    (age_days : ℤ) : List RDisease :=
  (builtKept kb bird_type symptoms age_days).map mkEntry

/-! ## Confidence, severity, escalation, treatment -/

/-- `_calculate_confidence` (lines 333-354). -/
def calculateConfidence (diseases : List RDisease) (symptoms : List String) : ℚ :=
  match diseases with
  | [] => 0
  | top :: _ =>
    if symptoms.isEmpty then 0
    else
      let top_score := top.match_score / 100
      let matched_count := top.matched_symptoms.length
      let symptom_factor := min ((symptoms.length : ℚ) / 5) 1
      let matched_ratio := (matched_count : ℚ) / (symptoms.length : ℚ)
      let confidence := top_score * (2/5) + symptom_factor * (1/4) + matched_ratio * (7/20)
      let confidence := if matched_count ≤ 1 then confidence * (1/2) else confidence
      round2 (min confidence (19/20))

/-- `sev_weights.get(top_sev, 2)` (lines 242, 249). -/
def sevWeight (s : String) : ℚ :=
  if s = "critical" then 4
  else if s = "high" then 3
  else if s = "moderate" then 2
  else if s = "low" then 1
  else 2

/-- `_calculate_severity` of the primary variant (lines 231-286):
weighted score from the top disease's label severity, the mortality factor,
a symptom-count bonus and the match-quality factor, cut at 3.2 / 2.2 / 1.2. -/
def calculateSeverity (diseases : List RDisease) (mortality_rate : ℚ)
    (symptom_count : ℕ) : String :=
  match diseases with
  | [] => "low"
  | top :: _ =>
    let base := sevWeight top.severity
    let mort_factor : ℚ :=
      if 10 < mortality_rate then 4
      else if 5 < mortality_rate then 3
      else if 2 < mortality_rate then 2
      else if 0 < mortality_rate then 1
      else 0
    let match_factor : ℚ :=
      if 60 ≤ top.match_score then 1
      else if 40 ≤ top.match_score then 4/5
      else if 20 ≤ top.match_score then 3/5
      else 3/10
    let symptom_bonus := min ((symptom_count : ℚ) / 6) 1
    let final := (base * (7/20) + mort_factor * (7/20) + symptom_bonus * base * (3/10)) * match_factor
    if 16/5 ≤ final then "critical"
    else if 11/5 ≤ final then "high"
    else if 6/5 ≤ final then "moderate"
    else "low"

/-- `_calculate_severity` of the legacy variant
(`backend/backend/disease_predictor.py`, lines 181-201): label/mortality
threshold cascade with no match-quality factor. -/
def legacyCalculateSeverity (diseases : List RDisease) (mortality_rate : ℚ)
    (symptom_count : ℕ) : String :=
  if diseases.isEmpty then "low"
  else
    let severities := diseases.map (fun d => d.severity)
    if severities.contains "critical" ∨ 10 < mortality_rate then "critical"
    else if severities.contains "high" ∨ 5 < mortality_rate then "high"
    else if severities.contains "moderate" ∨ 4 ≤ symptom_count then "moderate"
    else "low"

/-- `_should_call_vet` (lines 356-374). -/
def shouldCallVet (severity : String) (mortality_rate : ℚ)
    (diseases : List RDisease) : Bool :=
  if severity = "critical" ∨ severity = "high" then true
  else if 5 < mortality_rate then true
  else diseases.any (fun d => ["newcastle", "avian_influenza", "mareks_disease"].contains d.id)

/-- `_get_treatment_recommendations` (lines 288-331), as invoked from
`predict` (line 116).  `predict` passes the list of *response entries*
(lines 77-86), which carry no `"disease"` key, so
`primary_disease.get("disease")` at line 304 is `None`, the
`isinstance(disease_data, dict)` test at line 315 fails, and the embedded
treatment record of the top disease is never read: `diseaseData := none`
below models that lookup.  Python's `list(set(...))` deduplication is
modelled as first-occurrence dedup (its order is unspecified in the source
and no claim depends on it). -/
def getTreatmentRecommendations (diseases : List RDisease) (severity : String) :
    TreatmentInfo :=
  if diseases.isEmpty then
    { primary := ["Consult a veterinarian for proper diagnosis"]
      supportive := ["Provide electrolytes", "Ensure clean water", "Reduce stress"]
      medications := []
      duration := "As advised by veterinarian" }
  else
    let diseaseData : Option Disease := none
    let ti : TreatmentInfo :=
      { primary := [], supportive := [], medications := []
        duration := "5-7 days (adjust based on response)" }
    let ti :=
      match diseaseData with
      | some dd =>
        { ti with primary := dd.treatment.medications
                  supportive := dd.treatment.supportive
                  duration := dd.treatment.duration.getD "5-7 days" }
      | none => ti
    { ti with supportive :=
        ((ti.supportive ++ ["Electrolytes in drinking water",
                            "Vitamin supplementation (AD3E)",
                            "Reduce overcrowding and stress"]).eraseDups).take 5 }

/-- `get_random_facts` draws from the concatenation of the three
`quick_facts` pools (lines 398-406); the random choice itself is the
`sample` parameter of `predict`. -/
def allQuickFacts (kb : KB) : List String :=
  kb.facts_general ++ kb.facts_broiler ++ kb.facts_layer

/-! ## `predict` (lines 28-131) -/

/-- `predict`.  `sample` stands for `random.sample(pool, min(3, len(pool)))`
in `get_random_facts` — the only nondeterministic step.  The three return
paths are the low-symptom guard (lines 42-55), the confidence-threshold
guard (lines 97-110) and the full pipeline (lines 112-131); the Python
locals `diseases` and `confidence` appear inlined as
`builtDiseases kb bird_type symptoms age_days` and
`calculateConfidence … symptoms`. -/
def predict (kb : KB) (sample : List String → List String) (bird_type : String)
    (age_days : ℤ) (breed : String) (symptoms : List String)
    (mortality_rate : ℚ) (flock_size : ℤ) (additional_info : Option String) :
    PredictionResult :=
  if symptoms.length < 2 then
    { diseases := []
      severity := "low"
      treatment := none
      deficiencies := none
      facts := sample (allQuickFacts kb)
      prevention := []
      when_to_call_vet := false
      confidence := 0
      low_confidence := true
      low_confidence_message := some "Please select at least 2 symptoms for a reliable diagnosis. The more symptoms you provide, the more accurate the prediction." }
  else if (builtDiseases kb bird_type symptoms age_days).isEmpty
      ∨ calculateConfidence (builtDiseases kb bird_type symptoms age_days) symptoms < 1/4 then
    { diseases := builtDiseases kb bird_type symptoms age_days
      severity := "low"
      treatment := none
      deficiencies := none
      facts := sample (allQuickFacts kb)
      prevention := []
      when_to_call_vet := decide (5 < mortality_rate)
      confidence := calculateConfidence (builtDiseases kb bird_type symptoms age_days) symptoms
      low_confidence := true
      low_confidence_message := some "Confidence is too low for a reliable diagnosis. Try selecting more specific symptoms or adding more details." }
  else
    { diseases := builtDiseases kb bird_type symptoms age_days
      severity := calculateSeverity (builtDiseases kb bird_type symptoms age_days)
        mortality_rate symptoms.length
      treatment := some (getTreatmentRecommendations
        (builtDiseases kb bird_type symptoms age_days)
        (calculateSeverity (builtDiseases kb bird_type symptoms age_days)
          mortality_rate symptoms.length))
      deficiencies :=
        if ((((builtKept kb bird_type symptoms age_days).filter
            (fun p => p.2.disease.deficiency_related)).map
            (fun p => p.2.disease.deficiency)).flatten).isEmpty then none
        else some (((((builtKept kb bird_type symptoms age_days).filter
            (fun p => p.2.disease.deficiency_related)).map
            (fun p => p.2.disease.deficiency)).flatten).eraseDups)
      facts := ((((builtKept kb bird_type symptoms age_days).map
          (fun p => p.2.disease.facts)).flatten).eraseDups).take 5
      prevention := ((((builtKept kb bird_type symptoms age_days).map
          (fun p => p.2.disease.prevention)).flatten).eraseDups).take 5
      when_to_call_vet := shouldCallVet
        (calculateSeverity (builtDiseases kb bird_type symptoms age_days)
          mortality_rate symptoms.length) mortality_rate
        (builtDiseases kb bird_type symptoms age_days)
      confidence := calculateConfidence (builtDiseases kb bird_type symptoms age_days) symptoms
      low_confidence := false
      low_confidence_message := none }

/-! ## Spec-side definitions

Definitions in this section follow the wording of the specification claims
(not the source); each is compared against the corresponding source-derived
definition above. -/

/-- Claim C1's matching rule *as stated*: clause (a) compares the lower-cased
input symptom **with its spaces replaced by underscores** against the
lower-cased keyword (substring either way); clause (b) is the non-stop-word
overlap of the two word sets (underscores read as spaces). -/
def kwMatchClaim (s ds : String) : Bool :=
  let sl := pyLower s
  let su := pyRepl ' ' '_' sl
  let dsl := pyLower ds
  (pyIn su dsl || pyIn dsl su) ||
    (pySplitWs (pyRepl '_' ' ' sl)).any
      (fun w => (pySplitWs (pyRepl '_' ' ' dsl)).contains w && !(stopWords.contains w))

/-- The per-disease entry described by claim C1 *as stated* (identical to
`scoreOne` except that matching follows `kwMatchClaim`). -/
def scoreOneClaim (mapping : List (String × List String)) (d : Disease)
    (input : List String) (age_days : ℤ) (bird_type : String) : Option ScoreInfo :=
  let ks := keywordsFor mapping d
  let matched := input.filter (fun s => ks.any (kwMatchClaim s))
  if ks.isEmpty then none
  else some
    { score := min (comboScore ks.length matched.length input.length
        (isAgeAppropriate d age_days bird_type)
        (d.deficiency_related && decide (2 ≤ matched.length))) 1
      matched_symptoms := matched
      disease := d }

/-- The amended claim C1's matching rule: (a) one of the two lower-cased
strings (the input symptom additionally stripped) is a substring of the
other, with no space/underscore rewriting; or (b) the word sets of symptom
and keyword (underscores read as spaces) still share some word after the
stop words are removed. -/
def kwMatchSpec (s ds : String) : Bool :=
  let sl := pyStrip (pyLower s)
  let dsl := pyLower ds
  let sw := pySplitWs (pyRepl '_' ' ' sl)
  let dsw := pySplitWs (pyRepl '_' ' ' dsl)
  pyIn sl dsl || pyIn dsl sl ||
    !(((sw.filter (fun w => dsw.contains w)).filter
        (fun w => !(stopWords.contains w))).isEmpty)

/-- The per-disease entry described by the amended claim C1: diseases with an
empty keyword list are omitted; each input symptom is matched at most once;
the score is `match_ratio*0.5 + input_coverage*0.5` multiplied by 1.15 when
age-appropriate and by 1.1 when deficiency-related with at least 2 matches,
both multipliers applied before the clamp to 1. -/
def scoreOneSpec (mapping : List (String × List String)) (d : Disease)
    (input : List String) (age_days : ℤ) (bird_type : String) : Option ScoreInfo :=
  let ks := keywordsFor mapping d
  let matched := input.filter (fun s => ks.any (kwMatchSpec s))
  if ks.isEmpty then none
  else
    let base : ℚ := (matched.length : ℚ) / (ks.length : ℚ) * (1/2) +
      (if input.length = 0 then 0 else (matched.length : ℚ) / (input.length : ℚ)) * (1/2)
    some
      { score := min (base *
          (if isAgeAppropriate d age_days bird_type then 23/20 else 1) *
          (if d.deficiency_related && decide (2 ≤ matched.length) then 11/10 else 1)) 1
        matched_symptoms := matched
        disease := d }

/-- Claim C2's severity-label weighting: critical=4, high=3, moderate=2,
low=1, default 2 for an unrecognized label. -/
def sevBase : String → ℚ
  | "critical" => 4
  | "high" => 3
  | "moderate" => 2
  | "low" => 1
  | _ => 2

/-- The severity class described by claim C2:
`final = (base*0.35 + mortalityFactor*0.35 + symptomBonus*base*0.3) * matchQualityFactor`
with the stated factor tables and thresholds, and "low" for an empty list. -/
def severitySpec (diseases : List RDisease) (mortality_rate : ℚ)
    (symptom_count : ℕ) : String :=
  match diseases with
  | [] => "low"
  | top :: _ =>
    let base := sevBase top.severity
    let mortalityFactor : ℚ :=
      if 10 < mortality_rate then 4
      else if 5 < mortality_rate then 3
      else if 2 < mortality_rate then 2
      else if 0 < mortality_rate then 1
      else 0
    let matchQualityFactor : ℚ :=
      if 60 ≤ top.match_score then 1
      else if 40 ≤ top.match_score then 4/5
      else if 20 ≤ top.match_score then 3/5
      else 3/10
    let symptomBonus : ℚ := min ((symptom_count : ℚ) / 6) 1
    let final := (base * (7/20) + mortalityFactor * (7/20) +
      symptomBonus * base * (3/10)) * matchQualityFactor
    if 16/5 ≤ final then "critical"
    else if 11/5 ≤ final then "high"
    else if 6/5 ≤ final then "moderate"
    else "low"

/-- The confidence described by claim C3: 0 when either list is empty,
otherwise `round(min(h * (topScore*0.4 + symptomFactor*0.25 + matchedRatio*0.35), 0.95), 2)`
where `h` halves the weighted sum when at most 1 symptom matched. -/
def confidenceSpec (diseases : List RDisease) (symptoms : List String) : ℚ :=
  match diseases, symptoms with
  | [], _ => 0
  | _, [] => 0
  | top :: _, _ :: _ =>
    let topScore := top.match_score / 100
    let matchedCount := top.matched_symptoms.length
    let symptomFactor := min ((symptoms.length : ℚ) / 5) 1
    let matchedRatio := (matchedCount : ℚ) / (symptoms.length : ℚ)
    let weighted := topScore * (2/5) + symptomFactor * (1/4) + matchedRatio * (7/20)
    let weighted := if matchedCount ≤ 1 then weighted * (1/2) else weighted
    round2 (min weighted (19/20))

/-! ## General lemmas -/

/-- `List.any` respects pointwise-equal predicates. -/
theorem anyCongr {α : Type} (l : List α) (f g : α → Bool) (h : ∀ x, f x = g x) :
    l.any f = l.any g := by
  induction l with
  | nil => rfl
  | cons a t ih => simp [List.any_cons, h a, ih]

/-- "Some element satisfies `contains`-and-`q`" is "the doubly filtered list
is nonempty" (the set-intersection formulation of lines 181-184). -/
theorem any_and_eq (l m : List String) (q : String → Bool) :
    l.any (fun w => m.contains w && q w) =
      !(((l.filter (fun w => m.contains w)).filter q).isEmpty) := by
  rw [Bool.eq_iff_iff]
  constructor
  · intro h
    rcases List.any_eq_true.1 h with ⟨w, hw, hcond⟩
    rcases (by simpa using hcond : m.contains w = true ∧ q w = true) with ⟨hc, hq⟩
    have hmem : w ∈ (l.filter (fun w => m.contains w)).filter q :=
      List.mem_filter.2 ⟨List.mem_filter.2 ⟨hw, hc⟩, hq⟩
    have hne := List.ne_nil_of_mem hmem
    simpa [List.isEmpty_iff] using hne
  · intro h
    have hne : (l.filter (fun w => m.contains w)).filter q ≠ [] := by
      simpa [List.isEmpty_iff] using h
    rcases List.exists_mem_of_ne_nil _ hne with ⟨w, hw⟩
    rcases List.mem_filter.1 hw with ⟨hw1, hq⟩
    rcases List.mem_filter.1 hw1 with ⟨hl, hc⟩
    exact List.any_eq_true.2 ⟨w, hl, by rw [hc, hq]; rfl⟩

/-- `round` is monotone. -/
theorem roundMono {x y : ℚ} (h : x ≤ y) : round x ≤ round y := by
  rw [round_eq, round_eq]
  exact Int.floor_mono (by linarith)

theorem round2_nonneg {q : ℚ} (h : 0 ≤ q) : 0 ≤ round2 q := by
  unfold round2
  have h1 : (0 : ℤ) ≤ round (q * 100) := by
    have h2 := roundMono (mul_nonneg h (by norm_num : (0:ℚ) ≤ 100))
    simpa using h2
  exact div_nonneg (by exact_mod_cast h1) (by norm_num)

theorem round2_min_le (q : ℚ) : round2 (min q (19/20)) ≤ 19/20 := by
  unfold round2
  have h1 : round (min q (19/20) * 100) ≤ round ((95 : ℚ)) := by
    refine roundMono ?_
    have := min_le_right q (19/20)
    linarith
  have h2 : round ((95 : ℚ)) = 95 := by
    rw [round_eq]; norm_num
  rw [h2] at h1
  have h3 : ((round (min q (19/20) * 100) : ℤ) : ℚ) ≤ 95 := by exact_mod_cast h1
  linarith

theorem round1_nonneg {q : ℚ} (h : 0 ≤ q) : 0 ≤ round1 q := by
  unfold round1
  have h1 : (0 : ℤ) ≤ round (q * 10) := by
    have h2 := roundMono (mul_nonneg h (by norm_num : (0:ℚ) ≤ 10))
    simpa using h2
  exact div_nonneg (by exact_mod_cast h1) (by norm_num)

/-! ## Claim C1 -/

/-- The product form of the score arithmetic. -/
theorem comboScore_eq_prod (nk m ni : ℕ) (a b : Bool) :
    comboScore nk m ni a b =
      ((m : ℚ) / (nk : ℚ) * (1/2) + (if ni = 0 then 0 else (m : ℚ) / (ni : ℚ)) * (1/2)) *
        (if a then 23/20 else 1) * (if b then 11/10 else 1) := by
  unfold comboScore
  cases a <;> cases b <;> simp

/-- The engine's pair-matching rule coincides with the amended claim's. -/
theorem kwMatch_eq_spec (s ds : String) :
    kwMatch (pyStrip (pyLower s)) (pySplitWs (pyRepl '_' ' ' (pyStrip (pyLower s)))) ds =
      kwMatchSpec s ds := by
  simp only [kwMatch, kwMatchSpec, any_and_eq, Bool.or_assoc]

/-- The engine's per-symptom match test, in the amended claim's form. -/
theorem symptomMatches_eq_spec (ks : List String) (s : String) :
    symptomMatches ks s = ks.any (kwMatchSpec s) := by
  unfold symptomMatches
  exact anyCongr _ _ _ (fun ds => kwMatch_eq_spec s ds)

/-- C1 (amended): for every disease-symptom mapping, disease, input symptom
list, age and bird type, the scoring engine's per-disease entry is exactly
the amended claim's description: a symptom matches iff the lower-cased
(stripped) strings are substrings one of the other or the word sets share a
non-stop word; each input symptom counts at most once; the score is
`match_ratio*0.5 + input_coverage*0.5`, times 1.15 when age-appropriate,
times 1.1 when deficiency-related with ≥ 2 matches, clamped to 1; diseases
with an empty keyword list are omitted. -/
theorem c1_score_entry_amended (mapping : List (String × List String)) (d : Disease)
    (input : List String) (age_days : ℤ) (bird_type : String) :
    scoreOne mapping d input age_days bird_type =
      scoreOneSpec mapping d input age_days bird_type := by
  simp only [scoreOne, scoreOneSpec,
    show symptomMatches (keywordsFor mapping d) =
        fun s => (keywordsFor mapping d).any (kwMatchSpec s) from
      funext fun s => symptomMatches_eq_spec _ s,
    comboScore_eq_prod]

def dfltTreatment : DiseaseTreatment := ⟨[], [], none⟩

/-- A disease whose single keyword phrase `"xa by"` contains the input
symptom `"a b"` as a raw substring, but not after the claim's
spaces-to-underscores rewriting, and shares no non-stop word with it. -/
def c1dis : Disease :=
  { id := "d1", name := "D1", category := none, affects := ["broiler"],
    symptoms := ["xa by"], severity := none, causes := [], mortality_rate := none,
    age_susceptibility := "", deficiency_related := false, deficiency := [],
    prevention := [], facts := [], treatment := dfltTreatment }

/-- C1 (counterexample): on the input symptoms `["a b", "zz"]` the engine
matches `"a b"` against the keyword `"xa by"` by raw substring containment
and scores 3/4, while the computation described by the claim (substring
test after replacing the symptom's spaces by underscores) matches nothing
and scores 0. -/
theorem c1_counterexample :
    (scoreOne [] c1dis ["a b", "zz"] 0 "broiler").map ScoreInfo.score = some (3/4) ∧
    (scoreOneClaim [] c1dis ["a b", "zz"] 0 "broiler").map ScoreInfo.score = some 0 := by
  constructor
  · have hm : (["a b", "zz"].filter (symptomMatches ["xa by"])) = ["a b"] := by decide
    have ha : isAgeAppropriate c1dis 0 "broiler" = false := by decide
    have hd : c1dis.deficiency_related = false := rfl
    simp only [scoreOne, show keywordsFor [] c1dis = ["xa by"] from rfl, hm, ha, hd]
    norm_num [comboScore]
  · have hm : (["a b", "zz"].filter
        (fun s => (["xa by"] : List String).any (kwMatchClaim s))) = [] := by decide
    have ha : isAgeAppropriate c1dis 0 "broiler" = false := by decide
    have hd : c1dis.deficiency_related = false := rfl
    simp only [scoreOneClaim, show keywordsFor [] c1dis = ["xa by"] from rfl, hm, ha, hd]
    norm_num [comboScore]

/-! ## Claim C2 -/

theorem sevWeight_eq_sevBase (s : String) : sevWeight s = sevBase s := by
  unfold sevBase
  split
  · rfl
  · rfl
  · rfl
  · rfl
  · rename_i h1 h2 h3 h4
    unfold sevWeight
    rw [if_neg h1, if_neg h2, if_neg h3, if_neg h4]

/-- C2: for every disease list, mortality rate and symptom count, the
severity estimator returns exactly the class described by the claim's
formula `final = (base*0.35 + mortalityFactor*0.35 + symptomBonus*base*0.3)
* matchQualityFactor` with the stated weight tables, thresholds 3.2/2.2/1.2,
and "low" on an empty list. -/
theorem c2_severity_formula (diseases : List RDisease) (mortality_rate : ℚ)
    (symptom_count : ℕ) :
    calculateSeverity diseases mortality_rate symptom_count =
      severitySpec diseases mortality_rate symptom_count := by
  cases diseases with
  | nil => rfl
  | cons top rest =>
    simp only [calculateSeverity, severitySpec, sevWeight_eq_sevBase]

/-! ## Claim C3 -/

/-- Every entry of the response's `diseases` array has a nonnegative
(rounded) match score, because only candidates with positive raw score
survive the filter. -/
theorem builtDiseases_match_score_nonneg (kb : KB) (bird_type : String)
    (symptoms : List String) (age_days : ℤ) :
    ∀ e ∈ builtDiseases kb bird_type symptoms age_days, 0 ≤ e.match_score := by
  intro e he
  obtain ⟨p, hp, rfl⟩ := List.mem_map.1 he
  have hpos : 0 < p.2.score := by
    have h := (List.mem_filter.1 hp).2
    exact of_decide_eq_true h
  show 0 ≤ round1 (p.2.score * 100)
  exact round1_nonneg (mul_nonneg hpos.le (by norm_num))

/-- The confidence estimator's output is in `[0, 19/20]` and is an integer
number of hundredths, provided the top entry's match score is nonnegative. -/
theorem calculateConfidence_bounds (diseases : List RDisease) (symptoms : List String)
    (h : ∀ e ∈ diseases, 0 ≤ e.match_score) :
    0 ≤ calculateConfidence diseases symptoms ∧
      calculateConfidence diseases symptoms ≤ 19/20 ∧
      ∃ n : ℤ, calculateConfidence diseases symptoms = (n : ℚ) / 100 := by
  cases diseases with
  | nil =>
    refine ⟨?_, ?_, 0, ?_⟩ <;> norm_num [calculateConfidence]
  | cons top rest =>
    cases symptoms with
    | nil =>
      refine ⟨?_, ?_, 0, ?_⟩ <;> norm_num [calculateConfidence]
    | cons s t =>
      have hts : 0 ≤ top.match_score := h top (List.mem_cons_self _ _)
      simp only [calculateConfidence, List.isEmpty_cons, if_false, Bool.false_eq_true]
      have h0 : (0:ℚ) ≤ top.match_score / 100 * (2/5) +
          min (((s :: t).length : ℚ) / 5) 1 * (1/4) +
          (top.matched_symptoms.length : ℚ) / ((s :: t).length : ℚ) * (7/20) := by
        have h1 : (0:ℚ) ≤ top.match_score / 100 * (2/5) :=
          mul_nonneg (div_nonneg hts (by norm_num)) (by norm_num)
        have h2 : (0:ℚ) ≤ min (((s :: t).length : ℚ) / 5) 1 * (1/4) := by
          refine mul_nonneg (le_min ?_ ?_) (by norm_num) <;> positivity
        have h3 : (0:ℚ) ≤ (top.matched_symptoms.length : ℚ) / ((s :: t).length : ℚ) * (7/20) := by
          positivity
        linarith
      have h0' : (0:ℚ) ≤ (if top.matched_symptoms.length ≤ 1 then
          (top.match_score / 100 * (2/5) +
            min (((s :: t).length : ℚ) / 5) 1 * (1/4) +
            (top.matched_symptoms.length : ℚ) / ((s :: t).length : ℚ) * (7/20)) * (1/2)
          else top.match_score / 100 * (2/5) +
            min (((s :: t).length : ℚ) / 5) 1 * (1/4) +
            (top.matched_symptoms.length : ℚ) / ((s :: t).length : ℚ) * (7/20)) := by
        split <;> linarith
      exact ⟨round2_nonneg (le_min h0' (by norm_num)), round2_min_le _, _, rfl⟩

/-- The `confidence` field of a prediction is either 0 (low-symptom guard)
or the confidence computed on the built disease list. -/
theorem predict_confidence_cases (kb : KB) (sample : List String → List String)
    (bird_type : String) (age_days : ℤ) (breed : String) (symptoms : List String)
    (mortality_rate : ℚ) (flock_size : ℤ) (additional_info : Option String) :
    (predict kb sample bird_type age_days breed symptoms mortality_rate
        flock_size additional_info).confidence = 0 ∨
    (predict kb sample bird_type age_days breed symptoms mortality_rate
        flock_size additional_info).confidence =
      calculateConfidence (builtDiseases kb bird_type symptoms age_days) symptoms := by
  unfold predict
  split_ifs <;> simp

/-- C3: the confidence estimator computes exactly the claim's formula
(0 on an empty disease or symptom list, otherwise the rounded clamped
weighted sum with the ≤ 1-match halving), and consequently the confidence
field of every prediction lies in `[0, 0.95]` and is an exact multiple of
1/100 (two decimal places). -/
theorem c3_confidence_formula_and_bounds :
    (∀ (diseases : List RDisease) (symptoms : List String),
      calculateConfidence diseases symptoms = confidenceSpec diseases symptoms) ∧
    (∀ (kb : KB) (sample : List String → List String) (bird_type : String)
        (age_days : ℤ) (breed : String) (symptoms : List String)
        (mortality_rate : ℚ) (flock_size : ℤ) (additional_info : Option String),
      0 ≤ (predict kb sample bird_type age_days breed symptoms mortality_rate
          flock_size additional_info).confidence ∧
      (predict kb sample bird_type age_days breed symptoms mortality_rate
          flock_size additional_info).confidence ≤ 19/20 ∧
      ∃ n : ℤ, (predict kb sample bird_type age_days breed symptoms mortality_rate
          flock_size additional_info).confidence = (n : ℚ) / 100) := by
  constructor
  · intro diseases symptoms
    cases diseases <;> cases symptoms <;> rfl
  · intro kb sample bird_type age_days breed symptoms mortality_rate flock_size additional_info
    rcases predict_confidence_cases kb sample bird_type age_days breed symptoms
      mortality_rate flock_size additional_info with h | h
    · rw [h]; exact ⟨le_refl 0, by norm_num, 0, by norm_num⟩
    · rw [h]
      exact calculateConfidence_bounds _ _
        (builtDiseases_match_score_nonneg kb bird_type symptoms age_days)

/-! ## Path lemmas for `predict` and evaluation helpers -/

/-- The guard message of lines 42-55. -/
def lowSymptomMessage : String :=
  "Please select at least 2 symptoms for a reliable diagnosis. The more symptoms you provide, the more accurate the prediction."

/-- The guard message of lines 97-110. -/
def lowConfidenceMessage : String :=
  "Confidence is too low for a reliable diagnosis. Try selecting more specific symptoms or adding more details."

theorem predict_full_path (kb : KB) (sample : List String → List String)
    (bird_type : String) (age_days : ℤ) (breed : String) (symptoms : List String)
    (mortality_rate : ℚ) (flock_size : ℤ) (additional_info : Option String)
    (h2 : ¬ symptoms.length < 2)
    (hne : (builtDiseases kb bird_type symptoms age_days).isEmpty = false)
    (hconf : ¬ calculateConfidence (builtDiseases kb bird_type symptoms age_days)
      symptoms < 1/4) :
    predict kb sample bird_type age_days breed symptoms mortality_rate
        flock_size additional_info =
      { diseases := builtDiseases kb bird_type symptoms age_days
        severity := calculateSeverity (builtDiseases kb bird_type symptoms age_days)
          mortality_rate symptoms.length
        treatment := some (getTreatmentRecommendations
          (builtDiseases kb bird_type symptoms age_days)
          (calculateSeverity (builtDiseases kb bird_type symptoms age_days)
            mortality_rate symptoms.length))
        deficiencies :=
          if ((((builtKept kb bird_type symptoms age_days).filter
              (fun p => p.2.disease.deficiency_related)).map
              (fun p => p.2.disease.deficiency)).flatten).isEmpty then none
          else some (((((builtKept kb bird_type symptoms age_days).filter
              (fun p => p.2.disease.deficiency_related)).map
              (fun p => p.2.disease.deficiency)).flatten).eraseDups)
        facts := ((((builtKept kb bird_type symptoms age_days).map
            (fun p => p.2.disease.facts)).flatten).eraseDups).take 5
        prevention := ((((builtKept kb bird_type symptoms age_days).map
            (fun p => p.2.disease.prevention)).flatten).eraseDups).take 5
        when_to_call_vet := shouldCallVet
          (calculateSeverity (builtDiseases kb bird_type symptoms age_days)
            mortality_rate symptoms.length) mortality_rate
          (builtDiseases kb bird_type symptoms age_days)
        confidence := calculateConfidence (builtDiseases kb bird_type symptoms age_days)
          symptoms
        low_confidence := false
        low_confidence_message := none } := by
  unfold predict
  rw [if_neg h2, if_neg (not_or.2 ⟨by simp [hne], hconf⟩)]

/-- Evaluation of one `scoreOne` call from precomputed keyword list and
matched sublist. -/
theorem scoreOne_eval (mapping : List (String × List String)) (d : Disease)
    (input : List String) (age_days : ℤ) (bird_type : String)
    (ks matched : List String)
    (hk : keywordsFor mapping d = ks)
    (hm : input.filter (symptomMatches ks) = matched)
    (hke : ks.isEmpty = false) :
    scoreOne mapping d input age_days bird_type = some
      { score := min (comboScore ks.length matched.length input.length
          (isAgeAppropriate d age_days bird_type)
          (d.deficiency_related && decide (2 ≤ matched.length))) 1
        matched_symptoms := matched
        disease := d } := by
  simp only [scoreOne, hk, hm, hke, Bool.false_eq_true, if_false]

/-- `_score_diseases` over a single candidate. -/
theorem scoreDiseases_singleton (mapping : List (String × List String)) (d : Disease)
    (input : List String) (age_days : ℤ) (bird_type : String) (info : ScoreInfo)
    (h : scoreOne mapping d input age_days bird_type = some info) :
    scoreDiseases mapping [d] input age_days bird_type = [(d.id, info)] := by
  simp only [scoreDiseases, List.foldl_cons, List.foldl_nil, h]
  rfl

/-- Sorting, truncating and filtering a single positively scored candidate. -/
theorem builtKept_singleton (kb : KB) (bird_type : String) (symptoms : List String)
    (age_days : ℤ) (k : String) (info : ScoreInfo)
    (hsd : scoreDiseases kb.disease_symptom_mapping (applicableDiseases kb bird_type)
      symptoms age_days bird_type = [(k, info)])
    (hpos : 0 < info.score) :
    builtKept kb bird_type symptoms age_days = [(k, info)] := by
  unfold builtKept
  rw [hsd]
  simp [sortByScoreDesc, insertByScore, List.filter, hpos]

/-! ## Claim C5 -/

/-- C5: with fewer than 2 input symptoms `predict` returns (without raising)
the fixed insufficient-input result: no diseases, severity "low", no
treatment, no deficiencies, empty prevention, no vet escalation, confidence
0, the low-confidence flag with the fixed guidance message, and facts drawn
by the random sampler from the quick-facts pool. -/
theorem c5_insufficient_input (kb : KB) (sample : List String → List String)
    (bird_type : String) (age_days : ℤ) (breed : String) (symptoms : List String)
    (mortality_rate : ℚ) (flock_size : ℤ) (additional_info : Option String)
    (h : symptoms.length < 2) :
    predict kb sample bird_type age_days breed symptoms mortality_rate
        flock_size additional_info =
      { diseases := []
        severity := "low"
        treatment := none
        deficiencies := none
        facts := sample (allQuickFacts kb)
        prevention := []
        when_to_call_vet := false
        confidence := 0
        low_confidence := true
        low_confidence_message := some lowSymptomMessage } := by
  unfold predict
  rw [if_pos h]
  rfl

/-- The empty knowledge base (all four tables absent). -/
def kbEmpty : KB := ⟨[], [], [], [], [], [], []⟩

/-- A deterministic stand-in for `random.sample`: the empty selection. -/
def noSample : List String → List String := fun _ => []

/-- Witness for C5 at the concrete single-symptom request of spec
Scenario B. -/
theorem c5_insufficient_input_witness :
    (["sneezing"] : List String).length < 2 ∧
    predict kbEmpty noSample "broiler" 3 "Cobb 500" ["sneezing"] 0 10 none =
      { diseases := []
        severity := "low"
        treatment := none
        deficiencies := none
        facts := []
        prevention := []
        when_to_call_vet := false
        confidence := 0
        low_confidence := true
        low_confidence_message := some lowSymptomMessage } :=
  ⟨by decide,
    c5_insufficient_input kbEmpty noSample "broiler" 3 "Cobb 500" ["sneezing"] 0 10 none
      (by decide)⟩

/-! ## Claim C10 -/

/-- C10: with at least 2 symptoms, whenever no disease survives the positive
score filter or the computed confidence is below 0.25, `predict` returns the
found diseases with severity "low" (whatever the mortality rate and symptom
count), no treatment, no deficiencies, empty prevention, sampled facts, the
real computed confidence, the low-confidence flag and its message, and
`when_to_call_vet` true exactly when the mortality rate exceeds 5. -/
theorem c10_low_confidence_path (kb : KB) (sample : List String → List String)
    (bird_type : String) (age_days : ℤ) (breed : String) (symptoms : List String)
    (mortality_rate : ℚ) (flock_size : ℤ) (additional_info : Option String)
    (h2 : 2 ≤ symptoms.length)
    (hlow : builtDiseases kb bird_type symptoms age_days = [] ∨
      calculateConfidence (builtDiseases kb bird_type symptoms age_days) symptoms < 1/4) :
    predict kb sample bird_type age_days breed symptoms mortality_rate
        flock_size additional_info =
      { diseases := builtDiseases kb bird_type symptoms age_days
        severity := "low"
        treatment := none
        deficiencies := none
        facts := sample (allQuickFacts kb)
        prevention := []
        when_to_call_vet := decide (5 < mortality_rate)
        confidence := calculateConfidence (builtDiseases kb bird_type symptoms age_days)
          symptoms
        low_confidence := true
        low_confidence_message := some lowConfidenceMessage } := by
  unfold predict
  have hcond : ((builtDiseases kb bird_type symptoms age_days).isEmpty = true) ∨
      calculateConfidence (builtDiseases kb bird_type symptoms age_days) symptoms < 1/4 := by
    rcases hlow with h | h
    · exact Or.inl (by simp [h])
    · exact Or.inr h
  rw [if_neg (by omega : ¬ symptoms.length < 2), if_pos hcond]
  rfl

/-- Witness for C10: an empty knowledge base yields no diseases, and even at
12% mortality and 2 symptoms the severity field stays "low" while
`when_to_call_vet` is true. -/
theorem c10_low_confidence_path_witness :
    2 ≤ (["a", "b"] : List String).length ∧
    (builtDiseases kbEmpty "broiler" ["a", "b"] 0 = [] ∨
      calculateConfidence (builtDiseases kbEmpty "broiler" ["a", "b"] 0) ["a", "b"] < 1/4) ∧
    predict kbEmpty noSample "broiler" 0 "x" ["a", "b"] 12 5 none =
      { diseases := []
        severity := "low"
        treatment := none
        deficiencies := none
        facts := []
        prevention := []
        when_to_call_vet := true
        confidence := 0
        low_confidence := true
        low_confidence_message := some lowConfidenceMessage } :=
  ⟨by decide, Or.inl (by decide),
    c10_low_confidence_path kbEmpty noSample "broiler" 0 "x" ["a", "b"] 12 5 none
      (by decide) (Or.inl (by decide))⟩

/-! ## Claim C7 -/

/-- A disease with label severity "low" whose two keywords both match. -/
def c7dis : Disease :=
  { id := "weak", name := "Weak", category := none, affects := ["broiler"],
    symptoms := ["cough", "sneeze"], severity := some "low", causes := [],
    mortality_rate := none, age_susceptibility := "", deficiency_related := false,
    deficiency := [], prevention := [], facts := [], treatment := dfltTreatment }

def kb7 : KB := ⟨[c7dis], [], [], [], [], [], []⟩

def info7 : ScoreInfo := ⟨1, ["cough", "sneeze"], c7dis⟩

def entry7 : RDisease :=
  ⟨"weak", "Weak", "unknown", 100, ["cough", "sneeze"], "low", [], "variable"⟩

/-- C7 (counterexample): a request with mortality rate 12% whose result
contains one matched disease (full match, score 100) for which the primary
severity estimator returns "moderate", not "critical" — the base weight of
the top disease's "low" label keeps `final = 1.85` under the 3.2 cut. -/
theorem c7_counterexample :
    (predict kb7 noSample "broiler" 10 "b" ["cough", "sneeze"] 12 100 none).diseases
      = [entry7] ∧
    (predict kb7 noSample "broiler" 10 "b" ["cough", "sneeze"] 12 100 none).severity
      = "moderate" := by
  have hso : scoreOne kb7.disease_symptom_mapping c7dis ["cough", "sneeze"] 10 "broiler"
      = some info7 := by
    rw [scoreOne_eval kb7.disease_symptom_mapping c7dis ["cough", "sneeze"] 10 "broiler"
      ["cough", "sneeze"] ["cough", "sneeze"] rfl (by decide) rfl]
    have h1 : isAgeAppropriate c7dis 10 "broiler" = false := by decide
    have h2 : c7dis.deficiency_related = false := rfl
    simp only [h1, h2, Bool.false_and]
    norm_num [comboScore, info7]
  have hsd : scoreDiseases kb7.disease_symptom_mapping (applicableDiseases kb7 "broiler")
      ["cough", "sneeze"] 10 "broiler" = [("weak", info7)] := by
    rw [show applicableDiseases kb7 "broiler" = [c7dis] from rfl]
    exact scoreDiseases_singleton _ _ _ _ _ _ hso
  have hkept : builtKept kb7 "broiler" ["cough", "sneeze"] 10 = [("weak", info7)] :=
    builtKept_singleton _ _ _ _ _ _ hsd (by norm_num [info7])
  have hbuilt : builtDiseases kb7 "broiler" ["cough", "sneeze"] 10 = [entry7] := by
    unfold builtDiseases
    rw [hkept]
    simp only [List.map_cons, List.map_nil]
    congr 1
    simp only [mkEntry, info7, entry7]
    norm_num [round1, round_eq, c7dis]
  have hconf : calculateConfidence [entry7] ["cough", "sneeze"] = 17/20 := by
    simp only [calculateConfidence,
      show entry7.match_score = 100 from rfl,
      show entry7.matched_symptoms = ["cough", "sneeze"] from rfl]
    norm_num [round2, round_eq]
  have hsev : calculateSeverity [entry7] 12 2 = "moderate" := by
    simp only [calculateSeverity,
      show entry7.severity = "low" from rfl,
      show entry7.match_score = 100 from rfl,
      show sevWeight "low" = 1 from by decide]
    norm_num
  have hfull := predict_full_path kb7 noSample "broiler" 10 "b" ["cough", "sneeze"] 12 100
    none (by norm_num) (by rw [hbuilt]; rfl) (by rw [hbuilt, hconf]; norm_num)
  constructor
  · rw [hfull]
    show builtDiseases kb7 "broiler" ["cough", "sneeze"] 10 = [entry7]
    exact hbuilt
  · rw [hfull]
    show calculateSeverity (builtDiseases kb7 "broiler" ["cough", "sneeze"] 10) 12
      (["cough", "sneeze"] : List String).length = "moderate"
    rw [hbuilt]
    exact hsev

/-- C7 (amended): in the legacy predictor variant the severity estimator
returns "critical" for every non-empty disease list whenever the mortality
rate exceeds 10; the primary variant's match-quality and base weighting can
yield a lower class (see the counterexample). -/
theorem c7_legacy_mortality_critical (diseases : List RDisease) (mortality_rate : ℚ)
    (symptom_count : ℕ) (hne : diseases ≠ []) (hm : 10 < mortality_rate) :
    legacyCalculateSeverity diseases mortality_rate symptom_count = "critical" := by
  simp only [legacyCalculateSeverity]
  rw [if_neg (by simp [List.isEmpty_iff, hne]), if_pos (Or.inr hm)]

/-- Witness for the amended C7 at a concrete fixture. -/
theorem c7_legacy_mortality_critical_witness :
    (([entry7] : List RDisease) ≠ []) ∧ (10 < (12 : ℚ)) ∧
    legacyCalculateSeverity [entry7] 12 2 = "critical" :=
  ⟨by simp, by norm_num,
    c7_legacy_mortality_critical [entry7] 12 2 (by simp) (by norm_num)⟩

/-! ## Claim C4 -/

/-- Because the response entries carry no underlying disease record, the
treatment bundle for a non-empty disease list is always the same generic
bundle: no primary medications, the three generic supportive measures, and
the default duration — the embedded treatment record is never consulted. -/
theorem getTreatment_nonempty_const (diseases : List RDisease) (severity : String)
    (h : diseases ≠ []) :
    getTreatmentRecommendations diseases severity =
      { primary := []
        supportive := ["Electrolytes in drinking water",
                       "Vitamin supplementation (AD3E)",
                       "Reduce overcrowding and stress"]
        medications := []
        duration := "5-7 days (adjust based on response)" } := by
  unfold getTreatmentRecommendations
  rw [if_neg (by simp [List.isEmpty_iff, h])]
  rfl

/-- A disease carrying a real embedded treatment record. -/
def c4dis : Disease :=
  { id := "cocci", name := "Coccidiosis", category := some "parasitic",
    affects := ["broiler"], symptoms := ["bloody droppings", "ruffled feathers"],
    severity := some "high", causes := [], mortality_rate := none,
    age_susceptibility := "", deficiency_related := false, deficiency := [],
    prevention := [], facts := [],
    treatment := ⟨["Amprolium"], ["Keep litter dry"], some "5 days"⟩ }

def kb4 : KB := ⟨[c4dis], [], [], [], [], [], []⟩

def info4 : ScoreInfo := ⟨1, ["bloody droppings", "ruffled feathers"], c4dis⟩

def entry4 : RDisease :=
  ⟨"cocci", "Coccidiosis", "parasitic", 100, ["bloody droppings", "ruffled feathers"],
    "high", [], "variable"⟩

/-- C4 (code behavior at the failing input): the top-ranked disease's
knowledge-base record prescribes the medication "Amprolium" and supportive
care "Keep litter dry", yet the prediction's treatment bundle has empty
primary medications, only the three generic supportive measures, and the
default duration — `_get_treatment_recommendations` reads `.get("disease")`
off a response entry that has no such key, so the record is never used. -/
theorem c4_treatment_record_ignored :
    c4dis.treatment.medications = ["Amprolium"] ∧
    (predict kb4 noSample "broiler" 10 "b" ["bloody droppings", "ruffled feathers"]
      3 100 none).diseases = [entry4] ∧
    (predict kb4 noSample "broiler" 10 "b" ["bloody droppings", "ruffled feathers"]
      3 100 none).treatment = some
      { primary := []
        supportive := ["Electrolytes in drinking water",
                       "Vitamin supplementation (AD3E)",
                       "Reduce overcrowding and stress"]
        medications := []
        duration := "5-7 days (adjust based on response)" } := by
  have hso : scoreOne kb4.disease_symptom_mapping c4dis
      ["bloody droppings", "ruffled feathers"] 10 "broiler" = some info4 := by
    rw [scoreOne_eval kb4.disease_symptom_mapping c4dis
      ["bloody droppings", "ruffled feathers"] 10 "broiler"
      ["bloody droppings", "ruffled feathers"] ["bloody droppings", "ruffled feathers"]
      rfl (by decide) rfl]
    have h1 : isAgeAppropriate c4dis 10 "broiler" = false := by decide
    have h2 : c4dis.deficiency_related = false := rfl
    simp only [h1, h2, Bool.false_and]
    norm_num [comboScore, info4]
  have hsd : scoreDiseases kb4.disease_symptom_mapping (applicableDiseases kb4 "broiler")
      ["bloody droppings", "ruffled feathers"] 10 "broiler" = [("cocci", info4)] := by
    rw [show applicableDiseases kb4 "broiler" = [c4dis] from rfl]
    exact scoreDiseases_singleton _ _ _ _ _ _ hso
  have hkept : builtKept kb4 "broiler" ["bloody droppings", "ruffled feathers"] 10
      = [("cocci", info4)] :=
    builtKept_singleton _ _ _ _ _ _ hsd (by norm_num [info4])
  have hbuilt : builtDiseases kb4 "broiler" ["bloody droppings", "ruffled feathers"] 10
      = [entry4] := by
    unfold builtDiseases
    rw [hkept]
    simp only [List.map_cons, List.map_nil]
    congr 1
    simp only [mkEntry, info4, entry4]
    norm_num [round1, round_eq, c4dis]
  have hconf : calculateConfidence [entry4] ["bloody droppings", "ruffled feathers"]
      = 17/20 := by
    simp only [calculateConfidence,
      show entry4.match_score = 100 from rfl,
      show entry4.matched_symptoms = ["bloody droppings", "ruffled feathers"] from rfl]
    norm_num [round2, round_eq]
  have hfull := predict_full_path kb4 noSample "broiler" 10 "b"
    ["bloody droppings", "ruffled feathers"] 3 100 none
    (by norm_num) (by rw [hbuilt]; rfl) (by rw [hbuilt, hconf]; norm_num)
  refine ⟨rfl, ?_, ?_⟩
  · rw [hfull]
    show builtDiseases kb4 "broiler" ["bloody droppings", "ruffled feathers"] 10 = [entry4]
    exact hbuilt
  · rw [hfull]
    show some (getTreatmentRecommendations
      (builtDiseases kb4 "broiler" ["bloody droppings", "ruffled feathers"] 10) _) = _
    rw [hbuilt, getTreatment_nonempty_const [entry4] _ (by simp)]

/-! ## Claim C6 -/

/-- With at least 2 symptoms, the `diseases` field of the result is the
built disease array on both remaining paths. -/
theorem predict_diseases_eq (kb : KB) (sample : List String → List String)
    (bird_type : String) (age_days : ℤ) (breed : String) (symptoms : List String)
    (mortality_rate : ℚ) (flock_size : ℤ) (additional_info : Option String)
    (h2 : ¬ symptoms.length < 2) :
    (predict kb sample bird_type age_days breed symptoms mortality_rate
      flock_size additional_info).diseases =
      builtDiseases kb bird_type symptoms age_days := by
  unfold predict
  rw [if_neg h2]
  split <;> rfl

theorem mem_keys_dictInsert (k : String) (v : ScoreInfo)
    (l : List (String × ScoreInfo)) (x : String) :
    x ∈ (dictInsert k v l).map Prod.fst ↔ x = k ∨ x ∈ l.map Prod.fst := by
  induction l with
  | nil => simp [dictInsert]
  | cons p rest ih =>
    by_cases h : p.1 = k
    · simp [dictInsert, h]
    · simp [dictInsert, h, ih]
      tauto

theorem nodup_keys_dictInsert (k : String) (v : ScoreInfo)
    (l : List (String × ScoreInfo)) (h : (l.map Prod.fst).Nodup) :
    ((dictInsert k v l).map Prod.fst).Nodup := by
  induction l with
  | nil => simp [dictInsert]
  | cons p rest ih =>
    simp only [List.map_cons, List.nodup_cons] at h
    by_cases hk : p.1 = k
    · simp only [dictInsert, if_pos hk, List.map_cons, List.nodup_cons]
      exact ⟨hk ▸ h.1, h.2⟩
    · simp only [dictInsert, if_neg hk, List.map_cons, List.nodup_cons]
      refine ⟨?_, ih h.2⟩
      rw [mem_keys_dictInsert]
      push_neg
      exact ⟨hk, h.1⟩

/-- The score dict of `_score_diseases` has pairwise distinct keys. -/
theorem scoreDiseases_keys_nodup (mapping : List (String × List String))
    (ds : List Disease) (input : List String) (age_days : ℤ) (bird_type : String) :
    ((scoreDiseases mapping ds input age_days bird_type).map Prod.fst).Nodup := by
  suffices h : ∀ acc : List (String × ScoreInfo), (acc.map Prod.fst).Nodup →
      ((ds.foldl (fun acc d => match scoreOne mapping d input age_days bird_type with
        | none => acc
        | some info => dictInsert d.id info acc) acc).map Prod.fst).Nodup by
    exact h [] (by simp)
  induction ds with
  | nil => intro acc hacc; simpa using hacc
  | cons d rest ih =>
    intro acc hacc
    simp only [List.foldl_cons]
    apply ih
    cases hs : scoreOne mapping d input age_days bird_type with
    | none => exact hacc
    | some info => exact nodup_keys_dictInsert _ _ _ hacc

theorem insertByScore_perm (x : String × ScoreInfo) (l : List (String × ScoreInfo)) :
    (insertByScore x l).Perm (x :: l) := by
  induction l with
  | nil => exact List.Perm.refl _
  | cons y ys ih =>
    by_cases h : y.2.score < x.2.score
    · simp [insertByScore, h]
    · simp only [insertByScore, if_neg h]
      exact (ih.cons y).trans (List.Perm.swap x y ys)

theorem sortFold_perm (l acc : List (String × ScoreInfo)) :
    (l.foldl (fun a x => insertByScore x a) acc).Perm (l ++ acc) := by
  induction l generalizing acc with
  | nil => simp
  | cons x xs ih =>
    simp only [List.foldl_cons, List.cons_append]
    refine (ih (insertByScore x acc)).trans ?_
    refine (List.Perm.append_left xs (insertByScore_perm x acc)).trans ?_
    exact List.perm_middle

/-- The stable sort permutes the score dict. -/
theorem sortByScoreDesc_perm (l : List (String × ScoreInfo)) :
    (sortByScoreDesc l).Perm l := by
  have h := sortFold_perm l []
  simpa [sortByScoreDesc] using h

/-- Disease identifiers in the response array are pairwise distinct, because
the score dict is keyed by id and sorting/truncating/filtering preserve
that. -/
theorem builtDiseases_ids_nodup (kb : KB) (bird_type : String)
    (symptoms : List String) (age_days : ℤ) :
    ((builtDiseases kb bird_type symptoms age_days).map (fun e => e.id)).Nodup := by
  have h0 := scoreDiseases_keys_nodup kb.disease_symptom_mapping
    (applicableDiseases kb bird_type) symptoms age_days bird_type
  have h1 : ((sortByScoreDesc (scoreDiseases kb.disease_symptom_mapping
      (applicableDiseases kb bird_type) symptoms age_days bird_type)).map Prod.fst).Nodup :=
    (((sortByScoreDesc_perm _).map Prod.fst).nodup_iff).2 h0
  have hsub : List.Sublist (builtKept kb bird_type symptoms age_days)
      (sortByScoreDesc (scoreDiseases kb.disease_symptom_mapping
        (applicableDiseases kb bird_type) symptoms age_days bird_type)) :=
    (List.filter_sublist _).trans (List.take_sublist _ _)
  have h3 : ((builtKept kb bird_type symptoms age_days).map Prod.fst).Nodup :=
    h1.sublist (hsub.map Prod.fst)
  show (((builtKept kb bird_type symptoms age_days).map mkEntry).map
    (fun e => e.id)).Nodup
  rw [List.map_map]
  exact h3

/-- C6 (amended): a disease listed in the general pool with "layer" among
its affected types *and* in the layer-specific pool is included (at least)
twice in the applicable set — the filter performs no deduplication and the
scoring loop processes it twice — but `_score_diseases` keys its result
dict by disease id, the second pass overwriting the first entry in place,
so every prediction's returned disease list carries pairwise-distinct ids
and the disease can appear at most once. -/
theorem c6_duplicate_scoring_amended :
    (∀ (kb : KB) (d : Disease), d ∈ kb.broiler_diseases → "layer" ∈ d.affects →
      d ∈ kb.layer_specific → 2 ≤ (applicableDiseases kb "layer").count d) ∧
    (∀ (kb : KB) (sample : List String → List String) (bird_type : String)
        (age_days : ℤ) (breed : String) (symptoms : List String)
        (mortality_rate : ℚ) (flock_size : ℤ) (additional_info : Option String),
      ((predict kb sample bird_type age_days breed symptoms mortality_rate
        flock_size additional_info).diseases.map (fun e => e.id)).Nodup) := by
  constructor
  · intro kb d h1 h2 h3
    unfold applicableDiseases
    rw [if_pos rfl, List.count_append, List.count_append]
    have hm1 : d ∈ kb.broiler_diseases.filter (fun d' => d'.affects.contains "layer") :=
      List.mem_filter.2 ⟨h1, by simpa using h2⟩
    have hc1 : 0 < (kb.broiler_diseases.filter
        (fun d' => d'.affects.contains "layer")).count d := by
      rw [List.count_pos_iff]
      exact hm1
    have hc2 : 0 < kb.layer_specific.count d := by
      rw [List.count_pos_iff]
      exact h3
    omega
  · intro kb sample bird_type age_days breed symptoms mortality_rate flock_size additional_info
    by_cases h2 : symptoms.length < 2
    · have h : (predict kb sample bird_type age_days breed symptoms mortality_rate
          flock_size additional_info).diseases = [] := by
        unfold predict
        rw [if_pos h2]
      rw [h]
      simp
    · rw [predict_diseases_eq kb sample bird_type age_days breed symptoms mortality_rate
        flock_size additional_info h2]
      exact builtDiseases_ids_nodup kb bird_type symptoms age_days

/-- A disease tagged for layers in the general pool and repeated in the
layer-specific pool. -/
def c6dis : Disease :=
  { id := "dup", name := "Dup", category := none, affects := ["layer"],
    symptoms := ["cough", "sneeze"], severity := some "moderate", causes := [],
    mortality_rate := none, age_susceptibility := "", deficiency_related := false,
    deficiency := [], prevention := [], facts := [], treatment := dfltTreatment }

def kb6 : KB := ⟨[c6dis], [c6dis], [], [], [], [], []⟩

def info6 : ScoreInfo := ⟨1, ["cough", "sneeze"], c6dis⟩

/-- C6 (counterexample): with the duplicated disease `dup` in both pools,
the applicable set for a layer request contains it twice, yet the returned
disease list of the prediction mentions the id `dup` exactly once — it does
not appear twice as the claim states. -/
theorem c6_counterexample :
    (applicableDiseases kb6 "layer").count c6dis = 2 ∧
    ((predict kb6 noSample "layer" 150 "b" ["cough", "sneeze"] 0 100 none).diseases.map
      (fun e => e.id)) = ["dup"] := by
  constructor
  · decide
  · have hso : scoreOne kb6.disease_symptom_mapping c6dis ["cough", "sneeze"] 150 "layer"
        = some info6 := by
      rw [scoreOne_eval kb6.disease_symptom_mapping c6dis ["cough", "sneeze"] 150 "layer"
        ["cough", "sneeze"] ["cough", "sneeze"] rfl (by decide) rfl]
      have h1 : isAgeAppropriate c6dis 150 "layer" = false := by decide
      have h2 : c6dis.deficiency_related = false := rfl
      simp only [h1, h2, Bool.false_and]
      norm_num [comboScore, info6]
    have hsd : scoreDiseases kb6.disease_symptom_mapping (applicableDiseases kb6 "layer")
        ["cough", "sneeze"] 150 "layer" = [("dup", info6)] := by
      rw [show applicableDiseases kb6 "layer" = [c6dis, c6dis] from rfl]
      simp only [scoreDiseases, List.foldl_cons, List.foldl_nil, hso]
      rfl
    have hkept : builtKept kb6 "layer" ["cough", "sneeze"] 150 = [("dup", info6)] :=
      builtKept_singleton _ _ _ _ _ _ hsd (by norm_num [info6])
    rw [predict_diseases_eq kb6 noSample "layer" 150 "b" ["cough", "sneeze"] 0 100 none
      (by norm_num)]
    unfold builtDiseases
    rw [hkept]
    rfl

/-- Witness for the amended C6 at the duplicated-disease knowledge base. -/
theorem c6_duplicate_scoring_amended_witness :
    2 ≤ (applicableDiseases kb6 "layer").count c6dis ∧
    ((predict kb6 noSample "layer" 150 "b" ["cough", "sneeze"] 0 100 none).diseases.map
      (fun e => e.id)).Nodup :=
  ⟨c6_duplicate_scoring_amended.1 kb6 c6dis (by decide) (by decide) (by decide),
    c6_duplicate_scoring_amended.2 kb6 noSample "layer" 150 "b" ["cough", "sneeze"]
      0 100 none⟩

/-! ## Claim C8 -/

/-- A disease sharing nothing with the symptoms `"qq"`, `"ww"`. -/
def c8dis : Disease :=
  { id := "far", name := "Far", category := none, affects := ["broiler"],
    symptoms := ["totally different"], severity := none, causes := [],
    mortality_rate := none, age_susceptibility := "", deficiency_related := false,
    deficiency := [], prevention := [], facts := [], treatment := dfltTreatment }

/-- A knowledge base whose only disease is `c8dis`. -/
def kb8 : KB := ⟨[c8dis], [], [], [], [], [], []⟩

/-- C8 (amended): every prediction returns at most 3 diseases, each with a
nonnegative rounded `match_score` (each survives the positive-raw-score
filter, but the percentage rounded to one decimal can still be 0.0 — see
the counterexample); and the returned list can be empty even when
applicable candidate diseases exist. -/
theorem c8_result_bounds_amended :
    (∀ (kb : KB) (sample : List String → List String) (bird_type : String)
        (age_days : ℤ) (breed : String) (symptoms : List String)
        (mortality_rate : ℚ) (flock_size : ℤ) (additional_info : Option String),
      (predict kb sample bird_type age_days breed symptoms mortality_rate
        flock_size additional_info).diseases.length ≤ 3 ∧
      ((predict kb sample bird_type age_days breed symptoms mortality_rate
        flock_size additional_info).diseases.all (fun e => decide (0 ≤ e.match_score)))
        = true) ∧
    ((applicableDiseases kb8 "broiler").length = 1 ∧
      (predict kb8 noSample "broiler" 0 "b" ["qq", "ww"] 0 1 none).diseases = []) := by
  constructor
  · intro kb sample bird_type age_days breed symptoms mortality_rate flock_size
      additional_info
    have hlen3 : (builtDiseases kb bird_type symptoms age_days).length ≤ 3 := by
      unfold builtDiseases builtKept
      calc ((((sortByScoreDesc (scoreDiseases kb.disease_symptom_mapping
              (applicableDiseases kb bird_type) symptoms age_days bird_type)).take 3).filter
              (fun p => 0 < p.2.score)).map mkEntry).length
          = (((sortByScoreDesc (scoreDiseases kb.disease_symptom_mapping
              (applicableDiseases kb bird_type) symptoms age_days bird_type)).take 3).filter
              (fun p => 0 < p.2.score)).length := List.length_map _ _
        _ ≤ ((sortByScoreDesc (scoreDiseases kb.disease_symptom_mapping
              (applicableDiseases kb bird_type) symptoms age_days bird_type)).take 3).length :=
            List.length_filter_le _ _
        _ ≤ 3 := List.length_take_le _ _
    have hall : ((builtDiseases kb bird_type symptoms age_days).all
        (fun e => decide (0 ≤ e.match_score))) = true := by
      rw [List.all_eq_true]
      intro e he
      exact decide_eq_true (builtDiseases_match_score_nonneg kb bird_type symptoms
        age_days e he)
    by_cases h2 : symptoms.length < 2
    · have h : (predict kb sample bird_type age_days breed symptoms mortality_rate
          flock_size additional_info).diseases = [] := by
        unfold predict
        rw [if_pos h2]
      rw [h]
      exact ⟨by simp, rfl⟩
    · rw [predict_diseases_eq kb sample bird_type age_days breed symptoms mortality_rate
        flock_size additional_info h2]
      exact ⟨hlen3, hall⟩
  · refine ⟨rfl, ?_⟩
    rw [predict_diseases_eq kb8 noSample "broiler" 0 "b" ["qq", "ww"] 0 1 none (by norm_num)]
    have hso : scoreOne kb8.disease_symptom_mapping c8dis ["qq", "ww"] 0 "broiler"
        = some ⟨0, [], c8dis⟩ := by
      rw [scoreOne_eval kb8.disease_symptom_mapping c8dis ["qq", "ww"] 0 "broiler"
        ["totally different"] [] rfl (by decide) rfl]
      have h1 : isAgeAppropriate c8dis 0 "broiler" = false := by decide
      simp only [h1, show c8dis.deficiency_related = false from rfl, Bool.false_and]
      norm_num [comboScore]
    have hsd : scoreDiseases kb8.disease_symptom_mapping (applicableDiseases kb8 "broiler")
        ["qq", "ww"] 0 "broiler" = [("far", ⟨0, [], c8dis⟩)] := by
      rw [show applicableDiseases kb8 "broiler" = [c8dis] from rfl]
      exact scoreDiseases_singleton _ _ _ _ _ _ hso
    unfold builtDiseases builtKept
    rw [hsd]
    rfl

theorem any_replicate_false {α : Type} (f : α → Bool) (a : α) (h : f a = false) :
    ∀ n : ℕ, (List.replicate n a).any f = false := by
  intro n
  induction n with
  | zero => rfl
  | succ k ih => simp [List.replicate_succ, List.any_cons, h, ih]

theorem filter_replicate_false {α : Type} (p : α → Bool) (a : α) (h : p a = false) :
    ∀ n : ℕ, (List.replicate n a).filter p = [] := by
  intro n
  induction n with
  | zero => rfl
  | succ k ih => simp [List.replicate_succ, List.filter_cons, h, ih]

/-- 2001 keyword phrases: 2000 fillers and one match target. -/
def ksBig : List String := List.replicate 2000 "vvv" ++ ["matchme"]

/-- A disease with the 2001 keywords of `ksBig`. -/
def dBig : Disease :=
  { id := "big", name := "Big", category := none, affects := ["broiler"],
    symptoms := ksBig, severity := none, causes := [], mortality_rate := none,
    age_susceptibility := "", deficiency_related := false, deficiency := [],
    prevention := [], facts := [], treatment := dfltTreatment }

def kbBig : KB := ⟨[dBig], [], [], [], [], [], []⟩

/-- 2001 input symptoms of which exactly one matches a keyword of `dBig`. -/
def inputBig : List String := "matchme" :: List.replicate 2000 "qqq"

theorem symptomMatches_big_qqq : symptomMatches ksBig "qqq" = false := by
  have h : symptomMatches ksBig "qqq" = ksBig.any (kwMatch "qqq" ["qqq"]) := rfl
  rw [h, show ksBig = List.replicate 2000 "vvv" ++ ["matchme"] from rfl, List.any_append,
    any_replicate_false _ _ (by decide : kwMatch "qqq" ["qqq"] "vvv" = false)]
  decide

theorem symptomMatches_big_matchme : symptomMatches ksBig "matchme" = true := by
  have h : symptomMatches ksBig "matchme" = ksBig.any (kwMatch "matchme" ["matchme"]) := rfl
  rw [h, show ksBig = List.replicate 2000 "vvv" ++ ["matchme"] from rfl, List.any_append,
    any_replicate_false _ _ (by decide : kwMatch "matchme" ["matchme"] "vvv" = false)]
  decide

theorem matched_big : inputBig.filter (symptomMatches ksBig) = ["matchme"] := by
  rw [show inputBig = "matchme" :: List.replicate 2000 "qqq" from rfl, List.filter_cons]
  simp only [symptomMatches_big_matchme, if_true,
    filter_replicate_false _ _ symptomMatches_big_qqq]

theorem ksBig_length : ksBig.length = 2001 := by
  rw [show ksBig = List.replicate 2000 "vvv" ++ ["matchme"] from rfl, List.length_append,
    List.length_replicate]
  rfl

theorem inputBig_length : inputBig.length = 2001 := by
  rw [show inputBig = "matchme" :: List.replicate 2000 "qqq" from rfl, List.length_cons,
    List.length_replicate]

theorem scoreOne_big : scoreOne [] dBig inputBig 0 "broiler"
    = some ⟨1/2001, ["matchme"], dBig⟩ := by
  rw [scoreOne_eval [] dBig inputBig 0 "broiler" ksBig ["matchme"] rfl matched_big rfl]
  simp only [ksBig_length, inputBig_length,
    show isAgeAppropriate dBig 0 "broiler" = false from by decide,
    show dBig.deficiency_related = false from rfl, Bool.false_and]
  norm_num [comboScore]

def entryBig : RDisease :=
  ⟨"big", "Big", "unknown", 0, ["matchme"], "moderate", [], "variable"⟩

theorem builtDiseases_big : builtDiseases kbBig "broiler" inputBig 0 = [entryBig] := by
  have hsd : scoreDiseases kbBig.disease_symptom_mapping (applicableDiseases kbBig "broiler")
      inputBig 0 "broiler" = [("big", ⟨1/2001, ["matchme"], dBig⟩)] := by
    rw [show applicableDiseases kbBig "broiler" = [dBig] from rfl]
    exact scoreDiseases_singleton _ _ _ _ _ _ scoreOne_big
  have hkept : builtKept kbBig "broiler" inputBig 0 = [("big", ⟨1/2001, ["matchme"], dBig⟩)] :=
    builtKept_singleton _ _ _ _ _ _ hsd (by norm_num)
  unfold builtDiseases
  rw [hkept]
  simp only [List.map_cons, List.map_nil]
  congr 1
  simp only [mkEntry, entryBig]
  norm_num [round1, round_eq, dBig]

/-- C8 (counterexample): a prediction whose returned disease list consists
of one disease with `match_score = 0.0`.  With 2001 keywords and 2001 input
symptoms of which one matches, the raw score is `1/2001 > 0` (the entry
survives the positive-score filter) but the displayed percentage
`round(100/2001, 1)` rounds to 0.0, refuting "every returned disease has
match_score > 0". -/
theorem c8_counterexample :
    (predict kbBig noSample "broiler" 0 "b" inputBig 0 1 none).diseases = [entryBig] ∧
    ((predict kbBig noSample "broiler" 0 "b" inputBig 0 1 none).diseases.map
      (fun e => e.match_score)) = [0] := by
  have h2 : ¬ inputBig.length < 2 := by rw [inputBig_length]; norm_num
  have hd : (predict kbBig noSample "broiler" 0 "b" inputBig 0 1 none).diseases
      = [entryBig] := by
    rw [predict_diseases_eq kbBig noSample "broiler" 0 "b" inputBig 0 1 none h2,
      builtDiseases_big]
  exact ⟨hd, by rw [hd]; rfl⟩

/-! ## Claim C9 -/

/-- The score recorded for a disease: 0 when the disease is not scored. -/
def scoreVal : Option ScoreInfo → ℚ
  | none => 0
  | some i => i.score

theorem comboScore_monotone (nk m ni : ℕ) (a b b' : Bool)
    (hmn : m ≤ ni) (hbb : b = true → b' = true) :
    comboScore nk m ni a b ≤ comboScore nk (m + 1) (ni + 1) a b' := by
  rw [comboScore_eq_prod, comboScore_eq_prod]
  have hbase0 : (0:ℚ) ≤ (m : ℚ) / (nk : ℚ) * (1/2) +
      (if ni = 0 then 0 else (m : ℚ) / (ni : ℚ)) * (1/2) := by
    have h1 : (0:ℚ) ≤ (m : ℚ) / (nk : ℚ) := by positivity
    have h2 : (0:ℚ) ≤ (if ni = 0 then (0:ℚ) else (m : ℚ) / (ni : ℚ)) := by
      split
      · norm_num
      · positivity
    linarith
  have hr : (m : ℚ) / (nk : ℚ) ≤ ((m + 1 : ℕ) : ℚ) / (nk : ℚ) := by
    rcases Nat.eq_zero_or_pos nk with h | h
    · simp [h]
    · have hnk : (0:ℚ) < (nk : ℚ) := by exact_mod_cast h
      have hm1 : (m : ℚ) ≤ ((m + 1 : ℕ) : ℚ) := by push_cast; linarith
      exact (div_le_div_iff_of_pos_right hnk).2 hm1
  have hc : (if ni = 0 then (0:ℚ) else (m : ℚ) / (ni : ℚ)) ≤
      ((m + 1 : ℕ) : ℚ) / ((ni + 1 : ℕ) : ℚ) := by
    rcases Nat.eq_zero_or_pos ni with h | h
    · rw [if_pos h]
      positivity
    · rw [if_neg (Nat.pos_iff_ne_zero.1 h)]
      have hni : (0:ℚ) < (ni : ℚ) := by exact_mod_cast h
      have hni1 : (0:ℚ) < ((ni + 1 : ℕ) : ℚ) := by positivity
      rw [div_le_div_iff₀ hni hni1]
      have hmn' : (m : ℚ) ≤ (ni : ℚ) := by exact_mod_cast hmn
      push_cast
      nlinarith
  have hbase : (m : ℚ) / (nk : ℚ) * (1/2) +
      (if ni = 0 then 0 else (m : ℚ) / (ni : ℚ)) * (1/2) ≤
      ((m + 1 : ℕ) : ℚ) / (nk : ℚ) * (1/2) +
      (if (ni + 1 : ℕ) = 0 then 0 else ((m + 1 : ℕ) : ℚ) / ((ni + 1 : ℕ) : ℚ)) * (1/2) := by
    rw [if_neg (Nat.succ_ne_zero ni)]
    linarith
  have hA0 : (0:ℚ) ≤ (if a then (23:ℚ)/20 else 1) := by
    split <;> norm_num
  have hB0 : (0:ℚ) ≤ (if b then (11:ℚ)/10 else 1) := by
    split <;> norm_num
  have hB : (if b then (11:ℚ)/10 else 1) ≤
      (if b' then (11:ℚ)/10 else 1) := by
    cases hb : b
    · cases hb' : b'
      · norm_num
      · norm_num
    · rw [hbb hb]
  have h1 : ((m : ℚ) / (nk : ℚ) * (1/2) +
      (if ni = 0 then 0 else (m : ℚ) / (ni : ℚ)) * (1/2)) * (if a then (23:ℚ)/20 else 1) ≤
      (((m + 1 : ℕ) : ℚ) / (nk : ℚ) * (1/2) +
      (if (ni + 1 : ℕ) = 0 then 0 else ((m + 1 : ℕ) : ℚ) / ((ni + 1 : ℕ) : ℚ)) * (1/2)) *
        (if a then (23:ℚ)/20 else 1) :=
    mul_le_mul_of_nonneg_right hbase hA0
  have hbase0' : (0:ℚ) ≤ (((m + 1 : ℕ) : ℚ) / (nk : ℚ) * (1/2) +
      (if (ni + 1 : ℕ) = 0 then 0 else ((m + 1 : ℕ) : ℚ) / ((ni + 1 : ℕ) : ℚ)) * (1/2)) *
        (if a then (23:ℚ)/20 else 1) := by
    refine mul_nonneg ?_ hA0
    have h1' : (0:ℚ) ≤ ((m + 1 : ℕ) : ℚ) / (nk : ℚ) := by positivity
    have h2' : (0:ℚ) ≤ (if (ni + 1 : ℕ) = 0 then (0:ℚ)
        else ((m + 1 : ℕ) : ℚ) / ((ni + 1 : ℕ) : ℚ)) := by
      split
      · norm_num
      · positivity
    linarith
  calc ((m : ℚ) / (nk : ℚ) * (1/2) +
        (if ni = 0 then 0 else (m : ℚ) / (ni : ℚ)) * (1/2)) *
          (if a then (23:ℚ)/20 else 1) * (if b then (11:ℚ)/10 else 1)
      ≤ (((m + 1 : ℕ) : ℚ) / (nk : ℚ) * (1/2) +
        (if (ni + 1 : ℕ) = 0 then 0 else ((m + 1 : ℕ) : ℚ) / ((ni + 1 : ℕ) : ℚ)) * (1/2)) *
          (if a then (23:ℚ)/20 else 1) * (if b then (11:ℚ)/10 else 1) :=
        mul_le_mul_of_nonneg_right h1 hB0
    _ ≤ (((m + 1 : ℕ) : ℚ) / (nk : ℚ) * (1/2) +
        (if (ni + 1 : ℕ) = 0 then 0 else ((m + 1 : ℕ) : ℚ) / ((ni + 1 : ℕ) : ℚ)) * (1/2)) *
          (if a then (23:ℚ)/20 else 1) * (if b' then (11:ℚ)/10 else 1) :=
        mul_le_mul_of_nonneg_left hB hbase0'

theorem scoreVal_mk (q : ℚ) (l : List String) (d : Disease) :
    scoreVal (some ⟨q, l, d⟩) = q := rfl

/-- C9: appending to the input one additional symptom that matches some
keyword of the disease never decreases that disease's computed score: the
match count and the input length both grow by one, which cannot decrease
`match_ratio*0.5 + input_coverage*0.5`; the deficiency bonus can only
switch on; the age bonus is unchanged; the clamp to 1 is monotone. -/
theorem c9_score_monotone (mapping : List (String × List String)) (d : Disease)
    (input : List String) (s : String) (age_days : ℤ) (bird_type : String)
    (h : symptomMatches (keywordsFor mapping d) s = true) :
    scoreVal (scoreOne mapping d input age_days bird_type) ≤
      scoreVal (scoreOne mapping d (input ++ [s]) age_days bird_type) := by
  have hks : (keywordsFor mapping d).isEmpty = false := by
    cases hk : keywordsFor mapping d with
    | nil => rw [hk] at h; simp [symptomMatches] at h
    | cons a l => rfl
  have hmatched : (input ++ [s]).filter (symptomMatches (keywordsFor mapping d)) =
      input.filter (symptomMatches (keywordsFor mapping d)) ++ [s] := by
    rw [List.filter_append]
    simp [h]
  rw [scoreOne_eval mapping d input age_days bird_type (keywordsFor mapping d)
      (input.filter (symptomMatches (keywordsFor mapping d))) rfl rfl hks,
    scoreOne_eval mapping d (input ++ [s]) age_days bird_type (keywordsFor mapping d)
      (input.filter (symptomMatches (keywordsFor mapping d)) ++ [s]) rfl hmatched hks,
    scoreVal_mk, scoreVal_mk]
  rw [List.length_append, List.length_append]
  simp only [List.length_cons, List.length_nil, Nat.zero_add]
  refine min_le_min ?_ le_rfl
  refine comboScore_monotone _ _ _ _ _ _ (List.length_filter_le _ _) ?_
  intro hb
  rcases (by simpa using hb : d.deficiency_related = true ∧
      2 ≤ (List.filter (symptomMatches (keywordsFor mapping d)) input).length) with ⟨hd1, hd2⟩
  simp only [hd1, Bool.true_and, decide_eq_true_eq]
  omega

/-- A disease with the single keyword `"coughing"`. -/
def c9dis : Disease :=
  { id := "c9", name := "C9", category := none, affects := ["broiler"],
    symptoms := ["coughing"], severity := none, causes := [], mortality_rate := none,
    age_susceptibility := "", deficiency_related := false, deficiency := [],
    prevention := [], facts := [], treatment := dfltTreatment }

/-- Witness for C9: the added symptom `"cough"` matches the keyword
`"coughing"` by substring containment. -/
theorem c9_score_monotone_witness :
    symptomMatches (keywordsFor [] c9dis) "cough" = true ∧
    scoreVal (scoreOne [] c9dis ["coughing"] 0 "broiler") ≤
      scoreVal (scoreOne [] c9dis (["coughing"] ++ ["cough"]) 0 "broiler") :=
  ⟨by decide, c9_score_monotone [] c9dis ["coughing"] "cough" 0 "broiler" (by decide)⟩
